import Mathlib

/-!
Shallow embedding of the callback route of `src/server/routes/callback.js`:
the handler that completes a sign-in attempt for the three provider types
(`oauth`, `email`, `credentials`), applies the pluggable sign-in policy,
materializes the user via the callback handler, establishes a session
(stateless JWT cookie or persisted session cookie), dispatches the sign-in
event and picks the terminal outcome (a redirect, or a direct 500 response
for unsupported provider/method combinations).

External collaborators (adapter, `callbacks.signIn`, `callbacks.jwt`,
`jwt.encode`, `callbackHandler`, `provider.authorize`, the OAuth exchange)
are modelled as oracle functions carried in an environment record; a run
returns the terminal `Outcome` together with an ordered trace of the
collaborator invocations and effects (`List Step`), so that ordering and
frame properties can be stated.
-/

namespace NextAuthCallback

/-- A user / profile object: the fields the route reads (`name`, `email`,
`image`); `none` models a missing (undefined) field. -/
structure User where
  name : Option String := none
  email : Option String := none
  image : Option String := none
  deriving DecidableEq, Repr

/-- An account object as built by the route: oauth accounts come from the
OAuth resolution (with `provider` and `id` fields), the email flow builds
`\x7b id: provider.id, type: 'email', providerAccountId: email \x7d`, the
credentials flow builds `\x7b id: provider.id, type: 'credentials' \x7d`. -/
structure Account where
  id : String
  type : String
  provider : Option String := none
  providerAccountId : Option String := none
  deriving DecidableEq, Repr

/-- A persisted session record as returned by the callback handler. -/
structure Session where
  sessionToken : String
  expires : Option String := none
  deriving DecidableEq, Repr

/-- A JWT claim set; `claims` holds any custom claims the deployment's
`callbacks.jwt` adds beyond the default `name`/`email`/`picture`. -/
structure JwtPayload where
  name : Option String := none
  email : Option String := none
  picture : Option String := none
  claims : List (String × String) := []
  deriving DecidableEq, Repr

/-- The payload passed to the `signIn` event: the oauth and email flows pass
`\x7b user, account, isNewUser \x7d`; the credentials flow passes only
`\x7b user, account \x7d`, modelled by `isNewUser = none` (field absent). -/
structure SignInEventPayload where
  user : User
  account : Account
  isNewUser : Option Bool := none
  deriving DecidableEq, Repr

/-- Result of invoking the pluggable sign-in policy `callbacks.signIn`:
it returns `false` (deny), returns anything else (allow), or throws — either
a genuine `Error` object (with a `name` and `message`) or a non-`Error`
value that the route uses directly as a redirect target. -/
inductive SignInResult
  | allow
  | deny
  | throwErr (name message : String)
  | throwVal (url : String)
  deriving DecidableEq, Repr

/-- Result of the credentials provider's `authorize` handler: a user object,
a falsy value, or a thrown value (Error or not). -/
inductive AuthorizeResult
  | ok (user : User)
  | noUser
  | throwErr (name message : String)
  | throwVal (url : String)
  deriving DecidableEq, Repr

/-- Result of the callback handler (account linker / user materializer): a
`(user, session, isNewUser)` triple, or a thrown error distinguished by its
`name` property (`AccountNotLinkedError`, `CreateUserError`, anything else). -/
inductive CHResult
  | ok (user : User) (session : Session) (isNewUser : Bool)
  | accountNotLinkedError
  | createUserError
  | otherError
  deriving DecidableEq, Repr

/-- Outcome of the OAuth exchange collaborator, as delivered to the inner
callback of `oAuthCallback`: a truthy `error`, a missing profile, or a
`(profile, account, OAuthProfile)` triple. -/
inductive OAuthResolution
  | failure
  | noProfile
  | ok (profile : User) (account : Account) (oauthProfile : String)
  deriving DecidableEq, Repr

/-- The third argument the route passes to `callbacks.signIn`, which differs
per flow: the raw OAuth profile, the object `\x7b email \x7d`, or the
submitted credentials body. -/
inductive ThirdArg
  | oauthProfile (raw : String)
  | emailObj (email : String)
  | creds (body : String)
  deriving DecidableEq, Repr

/-- The fourth argument the route passes to `callbacks.jwt`: the raw OAuth
profile (oauth flow) or a user object (email and credentials flows). -/
inductive ProfilePayload
  | oauthRaw (raw : String)
  | ofUser (u : User)
  deriving DecidableEq, Repr

/-- Behaviour of a deployment-supplied event handler: it resolves, or fails. -/
inductive EventResult
  | ok
  | threw
  deriving DecidableEq, Repr

/-- The persistence collaborator operations the route consumes, as oracles.
`getVerificationRequest` returns whether a matching, unexpired verification
request exists for the given `(email, token)` pair. -/
structure Adapter where
  getUserByProviderAccountId : String → String → Option User
  getUserByEmail : String → Option User
  getVerificationRequest : String → String → Bool

/-- The provider entry selected from `options.providers`. `hasAuthorize`
models whether `provider.authorize` is defined. -/
structure Provider where
  id : String
  type : String
  hasAuthorize : Bool := true
  deriving DecidableEq, Repr

/-- The inbound completion request: method, `query.email`, `query.token`,
body (credentials submission) and the presented session-token cookie. -/
structure Request where
  method : String
  queryEmail : String := ""
  queryToken : String := ""
  body : String := ""
  sessionToken : Option String := none
  deriving DecidableEq, Repr

/-- The options threaded into the route, plus the collaborator oracles. -/
structure Env where
  baseUrl : String
  basePath : String
  callbackUrl : Option String := none
  newUserPage : Option String := none
  useJwtSession : Bool := true
  provider : Provider
  adapter : Option Adapter := none
  oauthResolution : OAuthResolution := OAuthResolution.noProfile
  signIn : User → Account → ThirdArg → SignInResult
  jwtCallback : JwtPayload → User → Account → ProfilePayload → Bool → JwtPayload
  jwtEncode : JwtPayload → String
  callbackHandler : Option String → User → Account → CHResult
  authorize : String → AuthorizeResult

/-- One traced collaborator invocation or effect of a run, in order. -/
inductive Step
  | getUserByProviderAccountId (provider id : String)
  | getVerificationRequest (email token : String)
  | deleteVerificationRequest (email token : String)
  | getUserByEmail (email : String)
  | signInPolicy (u : User) (a : Account) (x : ThirdArg)
  | materialize (sessionToken : Option String) (profile : User) (a : Account)
  | shapeClaims (isNewUser : Bool)
  | encodeJwt (p : JwtPayload)
  | setCookie (value : String)
  | dispatchSignIn (p : SignInEventPayload)
  | eventHandlerFault
  | authorizeInvoked (body : String)
  deriving DecidableEq, Repr

/-- The terminal outcome: a redirect, or the direct 500 response used for
unsupported provider/method combinations. -/
inductive Outcome
  | redirect (url : String)
  | status500 (body : String)
  deriving DecidableEq, Repr

/-- The error-page URL `baseUrl ++ basePath ++ "/error?error=" ++ code`. -/
def errorUrl (env : Env) (code : String) : String :=
  env.baseUrl ++ env.basePath ++ "/error?error=" ++ code

/-- JavaScript `x || d` on an optional string: `undefined` and the empty
string are falsy. -/
def jsOrElse (o : Option String) (d : String) : String :=
  match o with
  | some s => if s = "" then d else s
  | none => d

/-- JavaScript truthiness of an optional string. -/
def jsTruthy (o : Option String) : Bool :=
  match o with
  | some s => s != ""
  | none => false

/-- Uppercase hexadecimal digit for `n < 16`. -/
def hexDigitChar (n : Nat) : Char :=
  if n < 10 then Char.ofNat (48 + n) else Char.ofNat (55 + n)

/-- UTF-8 byte sequence of one code point. -/
def utf8Bytes (c : Char) : List Nat :=
  let n := c.toNat
  if n < 128 then [n]
  else if n < 2048 then [192 + n / 64, 128 + n % 64]
  else if n < 65536 then [224 + n / 4096, 128 + (n / 64) % 64, 128 + n % 64]
  else [240 + n / 262144, 128 + (n / 4096) % 64, 128 + (n / 64) % 64, 128 + n % 64]

/-- `%XX` percent-encoding of one byte, uppercase hex. -/
def percentEncodeByte (b : Nat) : String :=
  String.mk ['%', hexDigitChar (b / 16), hexDigitChar (b % 16)]

/-- The characters `encodeURIComponent` leaves unescaped: ASCII letters,
digits, and `- _ . ! ~ * ' ( )`. -/
def uriUnescaped (c : Char) : Bool :=
  c.isAlpha || c.isDigit ||
    ['-', '_', '.', '!', '~', '*', Char.ofNat 39, '(', ')'].contains c

/-- Encoding of one character under `encodeURIComponent`. -/
def encodeChar (c : Char) : String :=
  if uriUnescaped c then String.mk [c]
  else ((utf8Bytes c).map percentEncodeByte).foldl (· ++ ·) ""

/-- `encodeURIComponent` over a character list. -/
def encodeList : List Char → String
  | [] => ""
  | c :: cs => encodeChar c ++ encodeList cs

/-- JavaScript `encodeURIComponent`. -/
def encodeURIComponent (s : String) : String :=
  encodeList s.data

/-- JavaScript stringification of an `Error` object (as performed by string
interpolation such as `encodeURIComponent(error)`): `name: message`, with
the degenerate empty cases of `Error.prototype.toString`. -/
def jsErrorToString (name message : String) : String :=
  if name = "" then message
  else if message = "" then name
  else name ++ ": " ++ message

/-- Modelled from the spec: the event dispatcher module
(`src/server/lib/dispatch-event.js`) is not under `src/`. Per the spec it
"fires best-effort lifecycle notifications; failures here must not affect
the outcome of the flow" — a failure of the deployment-supplied handler is
swallowed (logged), so dispatch never propagates a fault to the route. -/
def dispatchEvent (ev : SignInEventPayload → EventResult)
    (payload : SignInEventPayload) : List Step :=
  match ev payload with
  | EventResult.ok => [Step.dispatchSignIn payload]
  | EventResult.threw => [Step.dispatchSignIn payload, Step.eventHandlerFault]

/-- The `userOrProfile` passed to the sign-in policy in the oauth flow:
the user looked up by provider account id when an adapter is configured and
the lookup succeeds, the resolved profile otherwise (lines 61-68). -/
def oauthUserOrProfile (env : Env) (profile : User) (account : Account) : User :=
  match env.adapter with
  | none => profile
  | some a =>
    match a.getUserByProviderAccountId (account.provider.getD "") account.id with
    | some u => u
    | none => profile

/-- The placeholder profile `\x7b email \x7d` synthesized by the email flow
when no existing user matches the address (line 156). -/
def emailPlaceholder (email : String) : User :=
  { email := some email }

/-- The account object built by the email flow (line 157). -/
def emailAccount (env : Env) (email : String) : Account :=
  { id := env.provider.id, type := "email", providerAccountId := some email }

/-- The account object built by the credentials flow (line 248). -/
def credAccount (env : Env) : Account :=
  { id := env.provider.id, type := "credentials" }

/-- The tail shared by the oauth and email flows after materialization
succeeds: session establishment (JWT cookie in stateless mode, the persisted
session token otherwise), sign-in event dispatch, and the final redirect
(new-user landing page when `isNewUser` and one is configured, otherwise
`callbackUrl || baseUrl`). -/
def finishSignIn (env : Env) (ev : SignInEventPayload → EventResult)
    (user : User) (session : Session) (isNewUser : Bool)
    (account : Account) (pp : ProfilePayload) : Outcome × List Step :=
  let sessionSteps :=
    if env.useJwtSession then
      let defaultJwtPayload : JwtPayload :=
        { name := user.name, email := user.email, picture := user.image }
      let jwtPayload := env.jwtCallback defaultJwtPayload user account pp isNewUser
      let encoded := env.jwtEncode jwtPayload
      [Step.shapeClaims isNewUser, Step.encodeJwt jwtPayload, Step.setCookie encoded]
    else
      [Step.setCookie session.sessionToken]
  let dispatchSteps :=
    dispatchEvent ev { user := user, account := account, isNewUser := some isNewUser }
  let target :=
    if isNewUser && jsTruthy env.newUserPage then env.newUserPage.getD ""
    else jsOrElse env.callbackUrl env.baseUrl
  (Outcome.redirect target, sessionSteps ++ dispatchSteps)

/-- The oauth branch after the sign-in policy allowed (lines 83-117):
materialization via the callback handler, with its error mapping
(lines 118-128), then session establishment, dispatch and redirect. -/
def oauthAllowed (env : Env) (ev : SignInEventPayload → EventResult)
    (req : Request) (profile : User) (account : Account)
    (oauthProfile : String) : Outcome × List Step :=
  let s0 := [Step.materialize req.sessionToken profile account]
  match env.callbackHandler req.sessionToken profile account with
  | CHResult.accountNotLinkedError =>
    (Outcome.redirect (errorUrl env "OAuthAccountNotLinked"), s0)
  | CHResult.createUserError =>
    (Outcome.redirect (errorUrl env "OAuthCreateAccount"), s0)
  | CHResult.otherError => (Outcome.redirect (errorUrl env "Callback"), s0)
  | CHResult.ok user session isNewUser =>
    let fin := finishSignIn env ev user session isNewUser account
      (ProfilePayload.oauthRaw oauthProfile)
    (fin.fst, s0 ++ fin.snd)

/-- The oauth branch once the exchange produced a profile (lines 61-128):
optional adapter lookup, sign-in policy with its catch, then the rest. -/
def oauthResolved (env : Env) (ev : SignInEventPayload → EventResult)
    (req : Request) (profile : User) (account : Account)
    (oauthProfile : String) : Outcome × List Step :=
  let lookupSteps :=
    match env.adapter with
    | none => []
    | some _ =>
      [Step.getUserByProviderAccountId (account.provider.getD "") account.id]
  let uop := oauthUserOrProfile env profile account
  let tail :=
    match env.signIn uop account (ThirdArg.oauthProfile oauthProfile) with
    | SignInResult.deny => (Outcome.redirect (errorUrl env "AccessDenied"), [])
    | SignInResult.throwErr n m =>
      (Outcome.redirect (errorUrl env (encodeURIComponent (jsErrorToString n m))), [])
    | SignInResult.throwVal v => (Outcome.redirect v, [])
    | SignInResult.allow => oauthAllowed env ev req profile account oauthProfile
  (tail.fst,
    lookupSteps ++
      Step.signInPolicy uop account (ThirdArg.oauthProfile oauthProfile) :: tail.snd)

/-- The oauth branch (lines 33-133). -/
def oauthRun (env : Env) (ev : SignInEventPayload → EventResult)
    (req : Request) : Outcome × List Step :=
  match env.oauthResolution with
  | OAuthResolution.failure => (Outcome.redirect (errorUrl env "oAuthCallback"), [])
  | OAuthResolution.noProfile =>
    (Outcome.redirect (env.baseUrl ++ env.basePath ++ "/signin"), [])
  | OAuthResolution.ok profile account oauthProfile =>
    oauthResolved env ev req profile account oauthProfile

/-- The email branch after the sign-in policy allowed (lines 173-211):
materialization with its error mapping (lines 212-218), then session
establishment, dispatch and redirect. -/
def emailAllowed (env : Env) (ev : SignInEventPayload → EventResult)
    (req : Request) (profile : User) (account : Account) : Outcome × List Step :=
  let s0 := [Step.materialize req.sessionToken profile account]
  match env.callbackHandler req.sessionToken profile account with
  | CHResult.createUserError =>
    (Outcome.redirect (errorUrl env "EmailCreateAccount"), s0)
  | CHResult.accountNotLinkedError => (Outcome.redirect (errorUrl env "Callback"), s0)
  | CHResult.otherError => (Outcome.redirect (errorUrl env "Callback"), s0)
  | CHResult.ok user session isNewUser =>
    let fin := finishSignIn env ev user session isNewUser account
      (ProfilePayload.ofUser profile)
    (fin.fst, s0 ++ fin.snd)

/-- The email branch once the verification request matched (lines 151-218):
token deletion, user lookup (placeholder when absent), sign-in policy with
its catch, then the rest. -/
def emailVerified (env : Env) (ev : SignInEventPayload → EventResult)
    (req : Request) (a : Adapter) : Outcome × List Step :=
  let email := req.queryEmail
  let profile := (a.getUserByEmail email).getD (emailPlaceholder email)
  let account := emailAccount env email
  let tail :=
    match env.signIn profile account (ThirdArg.emailObj email) with
    | SignInResult.deny => (Outcome.redirect (errorUrl env "AccessDenied"), [])
    | SignInResult.throwErr n m =>
      (Outcome.redirect (errorUrl env (encodeURIComponent (jsErrorToString n m))), [])
    | SignInResult.throwVal v => (Outcome.redirect v, [])
    | SignInResult.allow => emailAllowed env ev req profile account
  (tail.fst,
    Step.deleteVerificationRequest email req.queryToken ::
      Step.getUserByEmail email ::
      Step.signInPolicy profile account (ThirdArg.emailObj email) :: tail.snd)

/-- The email branch (lines 134-219). -/
def emailRun (env : Env) (ev : SignInEventPayload → EventResult)
    (req : Request) : Outcome × List Step :=
  match env.adapter with
  | none => (Outcome.redirect (errorUrl env "Configuration"), [])
  | some a =>
    if a.getVerificationRequest req.queryEmail req.queryToken then
      let v := emailVerified env ev req a
      (v.fst, Step.getVerificationRequest req.queryEmail req.queryToken :: v.snd)
    else
      (Outcome.redirect (errorUrl env "Verification"),
        [Step.getVerificationRequest req.queryEmail req.queryToken])

/-- The credentials branch after `authorize` returned a user (lines 247-281):
sign-in policy with its catch, then JWT shaping, cookie, dispatch (payload
without `isNewUser`) and redirect. -/
def credentialsAuthorized (env : Env) (ev : SignInEventPayload → EventResult)
    (req : Request) (user : User) : Outcome × List Step :=
  let account := credAccount env
  let tail :=
    match env.signIn user account (ThirdArg.creds req.body) with
    | SignInResult.deny => (Outcome.redirect (errorUrl env "AccessDenied"), [])
    | SignInResult.throwErr n m =>
      (Outcome.redirect (errorUrl env (encodeURIComponent (jsErrorToString n m))), [])
    | SignInResult.throwVal v => (Outcome.redirect v, [])
    | SignInResult.allow =>
      let defaultJwtPayload : JwtPayload :=
        { name := user.name, email := user.email, picture := user.image }
      let jwtPayload := env.jwtCallback defaultJwtPayload user account
        (ProfilePayload.ofUser user) false
      let encoded := env.jwtEncode jwtPayload
      (Outcome.redirect (jsOrElse env.callbackUrl env.baseUrl),
        Step.shapeClaims false :: Step.encodeJwt jwtPayload ::
          Step.setCookie encoded ::
          dispatchEvent ev { user := user, account := account })
  (tail.fst, Step.signInPolicy user account (ThirdArg.creds req.body) :: tail.snd)

/-- The credentials branch (lines 220-281). -/
def credentialsRun (env : Env) (ev : SignInEventPayload → EventResult)
    (req : Request) : Outcome × List Step :=
  if !env.useJwtSession then
    (Outcome.redirect (errorUrl env "Configuration"), [])
  else if !env.provider.hasAuthorize then
    (Outcome.redirect (errorUrl env "Configuration"), [])
  else
    let tail :=
      match env.authorize req.body with
      | AuthorizeResult.noUser =>
        (Outcome.redirect (errorUrl env
          ("CredentialsSignin&provider=" ++ encodeURIComponent env.provider.id)), [])
      | AuthorizeResult.throwErr n m =>
        (Outcome.redirect (errorUrl env (encodeURIComponent (jsErrorToString n m))), [])
      | AuthorizeResult.throwVal v => (Outcome.redirect v, [])
      | AuthorizeResult.ok user => credentialsAuthorized env ev req user
    (tail.fst, Step.authorizeInvoked req.body :: tail.snd)

/-- The whole route: dispatch on provider type and request method
(lines 33, 134, 220, 282-285). -/
def callbackRoute (env : Env) (ev : SignInEventPayload → EventResult)
    (req : Request) : Outcome × List Step :=
  if env.provider.type = "oauth" then oauthRun env ev req
  else if env.provider.type = "email" then emailRun env ev req
  else if env.provider.type = "credentials" ∧ req.method = "POST" then
    credentialsRun env ev req
  else
    (Outcome.status500
      ("Error: Callback for provider type " ++ env.provider.type ++ " not supported"),
      [])

/-- Modelled from the spec: the persistence collaborator's deletion
semantics are external to `src/` (the adapter implementations are not in
the repository snapshot). Per the spec, a verification token is "single-use:
must be deleted immediately after successful verification" and deletion is
atomic, so after `deleteVerificationRequest (email, token)` a lookup of
that same pair finds nothing. -/
def adapterAfterDelete (a : Adapter) (email token : String) : Adapter :=
  { a with
    getVerificationRequest := fun e t =>
      if e = email ∧ t = token then false else a.getVerificationRequest e t }

/-- A step that produces a session artifact or invokes materialization:
setting the session cookie, encoding a JWT, or calling the callback
handler. -/
def isSessionArtifactStep : Step → Bool
  | Step.setCookie _ => true
  | Step.encodeJwt _ => true
  | Step.materialize _ _ _ => true
  | _ => false

/-- The frame condition of the credentials flow: no materialization, no
persistence-adapter operation, every claims-shaping invocation carries
`isNewUser = false`, and every dispatched sign-in payload lacks the
`isNewUser` field. -/
def credFrameOk : Step → Bool
  | Step.materialize _ _ _ => false
  | Step.getUserByProviderAccountId _ _ => false
  | Step.getVerificationRequest _ _ => false
  | Step.deleteVerificationRequest _ _ => false
  | Step.getUserByEmail _ => false
  | Step.shapeClaims b => !b
  | Step.dispatchSignIn p => p.isNewUser.isNone
  | _ => true

/-- Concrete adapter used by the witness environments. -/
def wAdapter : Adapter :=
  { getUserByProviderAccountId := fun _ _ => none
    getUserByEmail := fun _ => none
    getVerificationRequest := fun _ _ => true }

/-- Concrete user used by the witness environments. -/
def wUser : User :=
  { name := some "Ada", email := some "ada@example.com" }

/-- Concrete session record used by the witness environments. -/
def wSession : Session :=
  { sessionToken := "sessiontoken" }

/-- Concrete oauth account used by the witness environments. -/
def wAccount : Account :=
  { id := "oauthp", type := "oauth", provider := some "oauthp"
    providerAccountId := some "42" }

/-- Concrete event handler that resolves. -/
def wEv : SignInEventPayload → EventResult := fun _ => EventResult.ok

/-- Concrete environment for an email-provider invocation. -/
def wEnvEmail : Env :=
  { baseUrl := "https://app.test", basePath := "/api/auth"
    provider := { id := "emailp", type := "email" }
    adapter := some wAdapter
    signIn := fun _ _ _ => SignInResult.allow
    jwtCallback := fun p _ _ _ _ => p
    jwtEncode := fun _ => "encoded.jwt"
    callbackHandler := fun _ _ _ => CHResult.ok wUser wSession false
    authorize := fun _ => AuthorizeResult.ok wUser }

/-- Concrete environment for an oauth-provider invocation. -/
def wEnvOauth : Env :=
  { wEnvEmail with
    provider := { id := "oauthp", type := "oauth" }
    oauthResolution := OAuthResolution.ok wUser wAccount "rawprofile" }

/-- Concrete environment for a credentials-provider invocation. -/
def wEnvCred : Env :=
  { wEnvEmail with provider := { id := "credp", type := "credentials" } }

/-- Concrete request used by the witnesses. -/
def wReq : Request :=
  { method := "POST", queryEmail := "ada@example.com", queryToken := "tok123" }

/-- Email-flow environment whose materialization fails with
`AccountNotLinkedError`. -/
def c6Env : Env :=
  { wEnvEmail with callbackHandler := fun _ _ _ => CHResult.accountNotLinkedError }

/-! ## General lemmas about the embedding -/

theorem string_append_cancel_left {s t u : String} (h : s ++ t = s ++ u) : t = u := by
  have hd : s.data ++ t.data = s.data ++ u.data := by
    rw [← String.data_append, ← String.data_append, h]
  have h2 := List.append_cancel_left hd
  cases t; cases u; exact congrArg String.mk h2

theorem errorUrl_inj {env : Env} {c c' : String}
    (h : errorUrl env c = errorUrl env c') : c = c' :=
  string_append_cancel_left h

theorem encodeList_append (l1 l2 : List Char) :
    encodeList (l1 ++ l2) = encodeList l1 ++ encodeList l2 := by
  induction l1 with
  | nil => simp [encodeList]
  | cons c cs ih => simp [encodeList, ih, String.append_assoc]

theorem encodeURIComponent_append (a b : String) :
    encodeURIComponent (a ++ b) = encodeURIComponent a ++ encodeURIComponent b := by
  unfold encodeURIComponent
  rw [String.data_append, encodeList_append]

/-- The URL-encoded stringification of an `Error` ends with the URL-encoded
message, so the message is surfaced (URL-encoded) in the query parameter. -/
theorem encode_error_surfaces_message (n m : String) :
    ∃ pre, encodeURIComponent (jsErrorToString n m) = pre ++ encodeURIComponent m := by
  unfold jsErrorToString
  by_cases hn : n = ""
  · exact ⟨"", by rw [if_pos hn]; simp⟩
  · by_cases hm : m = ""
    · refine ⟨encodeURIComponent n, ?_⟩
      rw [if_neg hn, if_pos hm, hm]
      simp [encodeURIComponent, encodeList]
    · refine ⟨encodeURIComponent (n ++ ": "), ?_⟩
      rw [if_neg hn, if_neg hm, ← encodeURIComponent_append]

theorem callbackRoute_email (env : Env) (ev : SignInEventPayload → EventResult)
    (req : Request) (hT : env.provider.type = "email") :
    callbackRoute env ev req = emailRun env ev req := by
  unfold callbackRoute
  rw [hT, if_neg (by decide), if_pos rfl]

theorem callbackRoute_oauth (env : Env) (ev : SignInEventPayload → EventResult)
    (req : Request) (hT : env.provider.type = "oauth") :
    callbackRoute env ev req = oauthRun env ev req := by
  unfold callbackRoute
  rw [hT, if_pos rfl]

theorem callbackRoute_credentials (env : Env) (ev : SignInEventPayload → EventResult)
    (req : Request) (hT : env.provider.type = "credentials")
    (hM : req.method = "POST") :
    callbackRoute env ev req = credentialsRun env ev req := by
  unfold callbackRoute
  rw [hT, hM, if_neg (by decide), if_neg (by decide), if_pos ⟨rfl, rfl⟩]

/-! ## Claims -/

/-- C1: In the email flow, whenever `getVerificationRequest` returns a
matching verification token, `deleteVerificationRequest` is invoked on that
same `(email, token)` pair before any subsequent step of the invocation —
the trace begins with the lookup immediately followed by the deletion, so
every later step (sign-in policy, user lookup, materialization, session
establishment) comes after the deletion — and a replay of the same request
against the post-deletion adapter state terminates with the `Verification`
error. -/
theorem c1_email_token_deleted_before_continuation (env : Env)
    (ev : SignInEventPayload → EventResult) (req : Request) (a : Adapter)
    (hT : env.provider.type = "email")
    (hA : env.adapter = some a)
    (hV : a.getVerificationRequest req.queryEmail req.queryToken = true) :
    (∃ rest, (callbackRoute env ev req).snd =
      Step.getVerificationRequest req.queryEmail req.queryToken ::
      Step.deleteVerificationRequest req.queryEmail req.queryToken :: rest) ∧
    (callbackRoute
        { env with adapter := some (adapterAfterDelete a req.queryEmail req.queryToken) }
        ev req).fst
      = Outcome.redirect (errorUrl env "Verification") := by
  constructor
  · rw [callbackRoute_email env ev req hT]
    simp only [emailRun, hA, hV, if_true]
    exact ⟨_, rfl⟩
  · have hT' : ({ env with
        adapter := some (adapterAfterDelete a req.queryEmail req.queryToken) } : Env).provider.type
        = "email" := hT
    rw [callbackRoute_email _ ev req hT']
    have hV' : (adapterAfterDelete a req.queryEmail req.queryToken).getVerificationRequest
        req.queryEmail req.queryToken = false := by
      simp [adapterAfterDelete]
    simp [emailRun, hV', errorUrl]

/-- Witness for C1 at a concrete environment. -/
theorem c1_witness :
    (∃ rest, (callbackRoute wEnvEmail wEv wReq).snd =
      Step.getVerificationRequest "ada@example.com" "tok123" ::
      Step.deleteVerificationRequest "ada@example.com" "tok123" :: rest) ∧
    (callbackRoute
        { wEnvEmail with
          adapter := some (adapterAfterDelete wAdapter "ada@example.com" "tok123") }
        wEv wReq).fst
      = Outcome.redirect (errorUrl wEnvEmail "Verification") :=
  c1_email_token_deleted_before_continuation wEnvEmail wEv wReq wAdapter rfl rfl rfl

/-- C4: A credentials-flow POST request with stateless sessions disabled
(`session.jwt` off) terminates with the `Configuration` error redirect, with
an empty trace: in particular the provider's `authorize` handler is never
invoked. -/
theorem c4_credentials_require_jwt_sessions (env : Env)
    (ev : SignInEventPayload → EventResult) (req : Request)
    (hT : env.provider.type = "credentials") (hM : req.method = "POST")
    (hJ : env.useJwtSession = false) :
    (callbackRoute env ev req).fst = Outcome.redirect (errorUrl env "Configuration") ∧
    (callbackRoute env ev req).snd = [] ∧
    (∀ b, Step.authorizeInvoked b ∉ (callbackRoute env ev req).snd) := by
  rw [callbackRoute_credentials env ev req hT hM]
  simp [credentialsRun, hJ]

/-- Witness for C4 at a concrete environment. -/
theorem c4_witness :
    (callbackRoute { wEnvCred with useJwtSession := false } wEv wReq).fst
      = Outcome.redirect (errorUrl { wEnvCred with useJwtSession := false } "Configuration") ∧
    (callbackRoute { wEnvCred with useJwtSession := false } wEv wReq).snd = [] ∧
    (∀ b, Step.authorizeInvoked b ∉
      (callbackRoute { wEnvCred with useJwtSession := false } wEv wReq).snd) :=
  c4_credentials_require_jwt_sessions { wEnvCred with useJwtSession := false }
    wEv wReq rfl rfl rfl

/-- C8: In the email flow, when the `(email, token)` pair does not match a
stored, unexpired verification request, the invocation terminates with the
`Verification` error redirect, the trace holds only the failed lookup, and
in particular no session cookie is set and no sign-in event is dispatched. -/
theorem c8_invalid_verification_token (env : Env)
    (ev : SignInEventPayload → EventResult) (req : Request) (a : Adapter)
    (hT : env.provider.type = "email")
    (hA : env.adapter = some a)
    (hV : a.getVerificationRequest req.queryEmail req.queryToken = false) :
    (callbackRoute env ev req).fst = Outcome.redirect (errorUrl env "Verification") ∧
    (callbackRoute env ev req).snd =
      [Step.getVerificationRequest req.queryEmail req.queryToken] ∧
    (∀ v, Step.setCookie v ∉ (callbackRoute env ev req).snd) ∧
    (∀ p, Step.dispatchSignIn p ∉ (callbackRoute env ev req).snd) := by
  rw [callbackRoute_email env ev req hT]
  simp [emailRun, hA, hV]

/-- Witness for C8 at a concrete environment. -/
theorem c8_witness :
    (callbackRoute
        { wEnvEmail with adapter := some (adapterAfterDelete wAdapter "x" "y") } wEv
        { wReq with queryEmail := "x", queryToken := "y" }).fst
      = Outcome.redirect
          (errorUrl { wEnvEmail with adapter := some (adapterAfterDelete wAdapter "x" "y") }
            "Verification") ∧
    (callbackRoute
        { wEnvEmail with adapter := some (adapterAfterDelete wAdapter "x" "y") } wEv
        { wReq with queryEmail := "x", queryToken := "y" }).snd
      = [Step.getVerificationRequest "x" "y"] ∧
    (∀ v, Step.setCookie v ∉
      (callbackRoute
        { wEnvEmail with adapter := some (adapterAfterDelete wAdapter "x" "y") } wEv
        { wReq with queryEmail := "x", queryToken := "y" }).snd) ∧
    (∀ p, Step.dispatchSignIn p ∉
      (callbackRoute
        { wEnvEmail with adapter := some (adapterAfterDelete wAdapter "x" "y") } wEv
        { wReq with queryEmail := "x", queryToken := "y" }).snd) :=
  c8_invalid_verification_token
    { wEnvEmail with adapter := some (adapterAfterDelete wAdapter "x" "y") } wEv
    { wReq with queryEmail := "x", queryToken := "y" } (adapterAfterDelete wAdapter "x" "y")
    rfl rfl (by simp [adapterAfterDelete, wAdapter])

/-- C9: A request whose provider type is not `oauth`, not `email`, and not
`credentials`-with-POST terminates with the direct 500 response rather than
a redirect, with an empty trace — in particular no session cookie is set. -/
theorem c9_unsupported_type_direct_rejection (env : Env)
    (ev : SignInEventPayload → EventResult) (req : Request)
    (h1 : env.provider.type ≠ "oauth") (h2 : env.provider.type ≠ "email")
    (h3 : env.provider.type = "credentials" → req.method ≠ "POST") :
    (callbackRoute env ev req).fst =
      Outcome.status500
        ("Error: Callback for provider type " ++ env.provider.type ++ " not supported") ∧
    (callbackRoute env ev req).snd = [] ∧
    (∀ v, Step.setCookie v ∉ (callbackRoute env ev req).snd) := by
  have hr : callbackRoute env ev req =
      (Outcome.status500
        ("Error: Callback for provider type " ++ env.provider.type ++ " not supported"),
        []) := by
    unfold callbackRoute
    rw [if_neg h1, if_neg h2, if_neg (fun hc => h3 hc.1 hc.2)]
  rw [hr]
  exact ⟨rfl, rfl, fun v => by simp⟩

/-- Witness for C9 at a concrete environment (non-POST credentials request). -/
theorem c9_witness :
    (callbackRoute wEnvCred wEv { wReq with method := "GET" }).fst =
      Outcome.status500
        ("Error: Callback for provider type " ++ wEnvCred.provider.type ++
          " not supported") ∧
    (callbackRoute wEnvCred wEv { wReq with method := "GET" }).snd = [] ∧
    (∀ v, Step.setCookie v ∉ (callbackRoute wEnvCred wEv { wReq with method := "GET" }).snd) :=
  c9_unsupported_type_direct_rejection wEnvCred wEv { wReq with method := "GET" }
    (by decide) (by decide) (fun _ => by decide)

/-- C2: For every provider type, a flow that succeeds with
`isNewUser = false` and no configured new-user page terminates with a
redirect to the validated callback URL when one is (truthily) present and to
`baseUrl` otherwise — i.e. to `jsOrElse env.callbackUrl env.baseUrl`. -/
theorem c2_success_redirects_to_callback_or_base :
    (∀ (env : Env) (ev : SignInEventPayload → EventResult) (req : Request)
      (profile : User) (account : Account) (oauthProfile : String)
      (user : User) (session : Session),
      env.provider.type = "oauth" →
      env.oauthResolution = OAuthResolution.ok profile account oauthProfile →
      env.signIn (oauthUserOrProfile env profile account) account
        (ThirdArg.oauthProfile oauthProfile) = SignInResult.allow →
      env.callbackHandler req.sessionToken profile account = CHResult.ok user session false →
      env.newUserPage = none →
      (callbackRoute env ev req).fst =
        Outcome.redirect (jsOrElse env.callbackUrl env.baseUrl)) ∧
    (∀ (env : Env) (ev : SignInEventPayload → EventResult) (req : Request)
      (a : Adapter) (user : User) (session : Session),
      env.provider.type = "email" →
      env.adapter = some a →
      a.getVerificationRequest req.queryEmail req.queryToken = true →
      env.signIn ((a.getUserByEmail req.queryEmail).getD (emailPlaceholder req.queryEmail))
        (emailAccount env req.queryEmail) (ThirdArg.emailObj req.queryEmail)
        = SignInResult.allow →
      env.callbackHandler req.sessionToken
        ((a.getUserByEmail req.queryEmail).getD (emailPlaceholder req.queryEmail))
        (emailAccount env req.queryEmail) = CHResult.ok user session false →
      env.newUserPage = none →
      (callbackRoute env ev req).fst =
        Outcome.redirect (jsOrElse env.callbackUrl env.baseUrl)) ∧
    (∀ (env : Env) (ev : SignInEventPayload → EventResult) (req : Request)
      (user : User),
      env.provider.type = "credentials" →
      req.method = "POST" →
      env.useJwtSession = true →
      env.provider.hasAuthorize = true →
      env.authorize req.body = AuthorizeResult.ok user →
      env.signIn user (credAccount env) (ThirdArg.creds req.body) = SignInResult.allow →
      env.newUserPage = none →
      (callbackRoute env ev req).fst =
        Outcome.redirect (jsOrElse env.callbackUrl env.baseUrl)) := by
  refine ⟨?_, ?_, ?_⟩
  · intro env ev req profile account oauthProfile user session hT hRes hSI hCH hNP
    rw [callbackRoute_oauth env ev req hT]
    simp [oauthRun, oauthResolved, oauthAllowed, finishSignIn, hRes, hSI, hCH, hNP]
  · intro env ev req a user session hT hA hV hSI hCH hNP
    rw [callbackRoute_email env ev req hT]
    simp [emailRun, emailVerified, emailAllowed, finishSignIn, hA, hV, hSI, hCH, hNP]
  · intro env ev req user hT hM hJ hHA hAuth hSI
    rw [callbackRoute_credentials env ev req hT hM]
    simp [credentialsRun, credentialsAuthorized, hJ, hHA, hAuth, hSI]

/-- Witness for C2 at concrete environments, one per provider type. -/
theorem c2_witness :
    (callbackRoute { wEnvOauth with callbackUrl := some "https://app.test/dash" } wEv wReq).fst
      = Outcome.redirect "https://app.test/dash" ∧
    (callbackRoute wEnvEmail wEv wReq).fst = Outcome.redirect "https://app.test" ∧
    (callbackRoute wEnvCred wEv wReq).fst = Outcome.redirect "https://app.test" := by
  refine ⟨?_, ?_, ?_⟩
  · exact c2_success_redirects_to_callback_or_base.1
      { wEnvOauth with callbackUrl := some "https://app.test/dash" } wEv wReq
      wUser wAccount "rawprofile" wUser wSession rfl rfl rfl rfl rfl
  · exact c2_success_redirects_to_callback_or_base.2.1 wEnvEmail wEv wReq
      wAdapter wUser wSession rfl rfl rfl rfl rfl rfl
  · exact c2_success_redirects_to_callback_or_base.2.2 wEnvCred wEv wReq
      wUser rfl rfl rfl rfl rfl rfl rfl

/-- C3: For every provider type, when the sign-in policy returns `false`
the invocation terminates with the `AccessDenied` error redirect and no
session artifact is produced: the trace holds no cookie-setting step, no
JWT-encoding step and no materialization step. -/
theorem c3_deny_yields_access_denied_without_artifacts :
    (∀ (env : Env) (ev : SignInEventPayload → EventResult) (req : Request)
      (profile : User) (account : Account) (oauthProfile : String),
      env.provider.type = "oauth" →
      env.oauthResolution = OAuthResolution.ok profile account oauthProfile →
      env.signIn (oauthUserOrProfile env profile account) account
        (ThirdArg.oauthProfile oauthProfile) = SignInResult.deny →
      (callbackRoute env ev req).fst = Outcome.redirect (errorUrl env "AccessDenied") ∧
      ((callbackRoute env ev req).snd.all fun s => !isSessionArtifactStep s) = true) ∧
    (∀ (env : Env) (ev : SignInEventPayload → EventResult) (req : Request)
      (a : Adapter),
      env.provider.type = "email" →
      env.adapter = some a →
      a.getVerificationRequest req.queryEmail req.queryToken = true →
      env.signIn ((a.getUserByEmail req.queryEmail).getD (emailPlaceholder req.queryEmail))
        (emailAccount env req.queryEmail) (ThirdArg.emailObj req.queryEmail)
        = SignInResult.deny →
      (callbackRoute env ev req).fst = Outcome.redirect (errorUrl env "AccessDenied") ∧
      ((callbackRoute env ev req).snd.all fun s => !isSessionArtifactStep s) = true) ∧
    (∀ (env : Env) (ev : SignInEventPayload → EventResult) (req : Request)
      (user : User),
      env.provider.type = "credentials" →
      req.method = "POST" →
      env.useJwtSession = true →
      env.provider.hasAuthorize = true →
      env.authorize req.body = AuthorizeResult.ok user →
      env.signIn user (credAccount env) (ThirdArg.creds req.body) = SignInResult.deny →
      (callbackRoute env ev req).fst = Outcome.redirect (errorUrl env "AccessDenied") ∧
      ((callbackRoute env ev req).snd.all fun s => !isSessionArtifactStep s) = true) := by
  refine ⟨?_, ?_, ?_⟩
  · intro env ev req profile account oauthProfile hT hRes hSI
    rw [callbackRoute_oauth env ev req hT]
    cases hAd : env.adapter <;>
      simp [oauthRun, oauthResolved, hRes, hSI, hAd, isSessionArtifactStep]
  · intro env ev req a hT hA hV hSI
    rw [callbackRoute_email env ev req hT]
    simp [emailRun, emailVerified, hA, hV, hSI, isSessionArtifactStep]
  · intro env ev req user hT hM hJ hHA hAuth hSI
    rw [callbackRoute_credentials env ev req hT hM]
    simp [credentialsRun, credentialsAuthorized, hJ, hHA, hAuth, hSI,
      isSessionArtifactStep]

/-- Witness for C3 at concrete environments, one per provider type. -/
theorem c3_witness :
    ((callbackRoute { wEnvOauth with signIn := fun _ _ _ => SignInResult.deny } wEv wReq).fst
      = Outcome.redirect
          (errorUrl { wEnvOauth with signIn := fun _ _ _ => SignInResult.deny } "AccessDenied") ∧
      ((callbackRoute { wEnvOauth with signIn := fun _ _ _ => SignInResult.deny } wEv wReq).snd.all
        fun s => !isSessionArtifactStep s) = true) ∧
    ((callbackRoute { wEnvEmail with signIn := fun _ _ _ => SignInResult.deny } wEv wReq).fst
      = Outcome.redirect
          (errorUrl { wEnvEmail with signIn := fun _ _ _ => SignInResult.deny } "AccessDenied") ∧
      ((callbackRoute { wEnvEmail with signIn := fun _ _ _ => SignInResult.deny } wEv wReq).snd.all
        fun s => !isSessionArtifactStep s) = true) ∧
    ((callbackRoute { wEnvCred with signIn := fun _ _ _ => SignInResult.deny } wEv wReq).fst
      = Outcome.redirect
          (errorUrl { wEnvCred with signIn := fun _ _ _ => SignInResult.deny } "AccessDenied") ∧
      ((callbackRoute { wEnvCred with signIn := fun _ _ _ => SignInResult.deny } wEv wReq).snd.all
        fun s => !isSessionArtifactStep s) = true) := by
  refine ⟨?_, ?_, ?_⟩
  · exact c3_deny_yields_access_denied_without_artifacts.1
      { wEnvOauth with signIn := fun _ _ _ => SignInResult.deny } wEv wReq
      wUser wAccount "rawprofile" rfl rfl rfl
  · exact c3_deny_yields_access_denied_without_artifacts.2.1
      { wEnvEmail with signIn := fun _ _ _ => SignInResult.deny } wEv wReq
      wAdapter rfl rfl rfl rfl
  · exact c3_deny_yields_access_denied_without_artifacts.2.2
      { wEnvCred with signIn := fun _ _ _ => SignInResult.deny } wEv wReq
      wUser rfl rfl rfl rfl rfl rfl

/-- C5: For every provider type, when the sign-in policy throws: a thrown
`Error` object yields a redirect to the error page whose `error` query
parameter is the URL-encoded stringification of the fault (which surfaces
the fault's message, URL-encoded, as the final conjunct states); a thrown
non-`Error` value yields a redirect to that value itself. -/
theorem c5_policy_fault_handling :
    (∀ (env : Env) (ev : SignInEventPayload → EventResult) (req : Request)
      (profile : User) (account : Account) (oauthProfile : String) (n m : String),
      env.provider.type = "oauth" →
      env.oauthResolution = OAuthResolution.ok profile account oauthProfile →
      env.signIn (oauthUserOrProfile env profile account) account
        (ThirdArg.oauthProfile oauthProfile) = SignInResult.throwErr n m →
      (callbackRoute env ev req).fst =
        Outcome.redirect (errorUrl env (encodeURIComponent (jsErrorToString n m)))) ∧
    (∀ (env : Env) (ev : SignInEventPayload → EventResult) (req : Request)
      (profile : User) (account : Account) (oauthProfile : String) (v : String),
      env.provider.type = "oauth" →
      env.oauthResolution = OAuthResolution.ok profile account oauthProfile →
      env.signIn (oauthUserOrProfile env profile account) account
        (ThirdArg.oauthProfile oauthProfile) = SignInResult.throwVal v →
      (callbackRoute env ev req).fst = Outcome.redirect v) ∧
    (∀ (env : Env) (ev : SignInEventPayload → EventResult) (req : Request)
      (a : Adapter) (n m : String),
      env.provider.type = "email" →
      env.adapter = some a →
      a.getVerificationRequest req.queryEmail req.queryToken = true →
      env.signIn ((a.getUserByEmail req.queryEmail).getD (emailPlaceholder req.queryEmail))
        (emailAccount env req.queryEmail) (ThirdArg.emailObj req.queryEmail)
        = SignInResult.throwErr n m →
      (callbackRoute env ev req).fst =
        Outcome.redirect (errorUrl env (encodeURIComponent (jsErrorToString n m)))) ∧
    (∀ (env : Env) (ev : SignInEventPayload → EventResult) (req : Request)
      (a : Adapter) (v : String),
      env.provider.type = "email" →
      env.adapter = some a →
      a.getVerificationRequest req.queryEmail req.queryToken = true →
      env.signIn ((a.getUserByEmail req.queryEmail).getD (emailPlaceholder req.queryEmail))
        (emailAccount env req.queryEmail) (ThirdArg.emailObj req.queryEmail)
        = SignInResult.throwVal v →
      (callbackRoute env ev req).fst = Outcome.redirect v) ∧
    (∀ (env : Env) (ev : SignInEventPayload → EventResult) (req : Request)
      (user : User) (n m : String),
      env.provider.type = "credentials" →
      req.method = "POST" →
      env.useJwtSession = true →
      env.provider.hasAuthorize = true →
      env.authorize req.body = AuthorizeResult.ok user →
      env.signIn user (credAccount env) (ThirdArg.creds req.body)
        = SignInResult.throwErr n m →
      (callbackRoute env ev req).fst =
        Outcome.redirect (errorUrl env (encodeURIComponent (jsErrorToString n m)))) ∧
    (∀ (env : Env) (ev : SignInEventPayload → EventResult) (req : Request)
      (user : User) (v : String),
      env.provider.type = "credentials" →
      req.method = "POST" →
      env.useJwtSession = true →
      env.provider.hasAuthorize = true →
      env.authorize req.body = AuthorizeResult.ok user →
      env.signIn user (credAccount env) (ThirdArg.creds req.body)
        = SignInResult.throwVal v →
      (callbackRoute env ev req).fst = Outcome.redirect v) ∧
    (∀ n m : String,
      ∃ pre, encodeURIComponent (jsErrorToString n m) = pre ++ encodeURIComponent m) := by
  refine ⟨?_, ?_, ?_, ?_, ?_, ?_, encode_error_surfaces_message⟩
  · intro env ev req profile account oauthProfile n m hT hRes hSI
    rw [callbackRoute_oauth env ev req hT]
    simp [oauthRun, oauthResolved, hRes, hSI]
  · intro env ev req profile account oauthProfile v hT hRes hSI
    rw [callbackRoute_oauth env ev req hT]
    simp [oauthRun, oauthResolved, hRes, hSI]
  · intro env ev req a n m hT hA hV hSI
    rw [callbackRoute_email env ev req hT]
    simp [emailRun, emailVerified, hA, hV, hSI]
  · intro env ev req a v hT hA hV hSI
    rw [callbackRoute_email env ev req hT]
    simp [emailRun, emailVerified, hA, hV, hSI]
  · intro env ev req user n m hT hM hJ hHA hAuth hSI
    rw [callbackRoute_credentials env ev req hT hM]
    simp [credentialsRun, credentialsAuthorized, hJ, hHA, hAuth, hSI]
  · intro env ev req user v hT hM hJ hHA hAuth hSI
    rw [callbackRoute_credentials env ev req hT hM]
    simp [credentialsRun, credentialsAuthorized, hJ, hHA, hAuth, hSI]

/-- Witness for C5 at concrete environments, one per flow and thrown kind. -/
theorem c5_witness :
    (callbackRoute { wEnvOauth with signIn := fun _ _ _ => SignInResult.throwErr "Error" "bad msg" } wEv wReq).fst
      = Outcome.redirect
          (errorUrl { wEnvOauth with signIn := fun _ _ _ => SignInResult.throwErr "Error" "bad msg" }
            (encodeURIComponent (jsErrorToString "Error" "bad msg"))) ∧
    (callbackRoute { wEnvOauth with signIn := fun _ _ _ => SignInResult.throwVal "https://other.test" } wEv wReq).fst
      = Outcome.redirect "https://other.test" ∧
    (callbackRoute { wEnvEmail with signIn := fun _ _ _ => SignInResult.throwErr "Error" "bad msg" } wEv wReq).fst
      = Outcome.redirect
          (errorUrl { wEnvEmail with signIn := fun _ _ _ => SignInResult.throwErr "Error" "bad msg" }
            (encodeURIComponent (jsErrorToString "Error" "bad msg"))) ∧
    (callbackRoute { wEnvEmail with signIn := fun _ _ _ => SignInResult.throwVal "https://other.test" } wEv wReq).fst
      = Outcome.redirect "https://other.test" ∧
    (callbackRoute { wEnvCred with signIn := fun _ _ _ => SignInResult.throwErr "Error" "bad msg" } wEv wReq).fst
      = Outcome.redirect
          (errorUrl { wEnvCred with signIn := fun _ _ _ => SignInResult.throwErr "Error" "bad msg" }
            (encodeURIComponent (jsErrorToString "Error" "bad msg"))) ∧
    (callbackRoute { wEnvCred with signIn := fun _ _ _ => SignInResult.throwVal "https://other.test" } wEv wReq).fst
      = Outcome.redirect "https://other.test" ∧
    (∃ pre, encodeURIComponent (jsErrorToString "Error" "bad msg")
      = pre ++ encodeURIComponent "bad msg") := by
  refine ⟨?_, ?_, ?_, ?_, ?_, ?_, ?_⟩
  · exact c5_policy_fault_handling.1
      { wEnvOauth with signIn := fun _ _ _ => SignInResult.throwErr "Error" "bad msg" }
      wEv wReq wUser wAccount "rawprofile" "Error" "bad msg" rfl rfl rfl
  · exact c5_policy_fault_handling.2.1
      { wEnvOauth with signIn := fun _ _ _ => SignInResult.throwVal "https://other.test" }
      wEv wReq wUser wAccount "rawprofile" "https://other.test" rfl rfl rfl
  · exact c5_policy_fault_handling.2.2.1
      { wEnvEmail with signIn := fun _ _ _ => SignInResult.throwErr "Error" "bad msg" }
      wEv wReq wAdapter "Error" "bad msg" rfl rfl rfl rfl
  · exact c5_policy_fault_handling.2.2.2.1
      { wEnvEmail with signIn := fun _ _ _ => SignInResult.throwVal "https://other.test" }
      wEv wReq wAdapter "https://other.test" rfl rfl rfl rfl
  · exact c5_policy_fault_handling.2.2.2.2.1
      { wEnvCred with signIn := fun _ _ _ => SignInResult.throwErr "Error" "bad msg" }
      wEv wReq wUser "Error" "bad msg" rfl rfl rfl rfl rfl rfl
  · exact c5_policy_fault_handling.2.2.2.2.2.1
      { wEnvCred with signIn := fun _ _ _ => SignInResult.throwVal "https://other.test" }
      wEv wReq wUser "https://other.test" rfl rfl rfl rfl rfl rfl
  · exact c5_policy_fault_handling.2.2.2.2.2.2 "Error" "bad msg"

/-- C6 counterexample: in the email flow, a materialization failure of kind
`AccountNotLinked` does NOT yield the `OAuthAccountNotLinked` code the claim
asserts — at this concrete input it yields the generic `Callback` code. -/
theorem c6_counterexample_email_account_not_linked :
    (callbackRoute c6Env wEv wReq).fst = Outcome.redirect (errorUrl c6Env "Callback") ∧
    (callbackRoute c6Env wEv wReq).fst
      ≠ Outcome.redirect (errorUrl c6Env "OAuthAccountNotLinked") := by
  constructor
  · rfl
  · decide

/-- C6 (amended): a materialization failure of kind `AccountNotLinked`
yields `OAuthAccountNotLinked` in the oauth flow but the generic `Callback`
code in the email flow; one of kind `CreateUserFailed` yields
`OAuthCreateAccount` in the oauth flow and `EmailCreateAccount` in the email
flow; within each flow the two kinds map to distinct codes. -/
theorem c6_amended_materialize_error_codes :
    (∀ (env : Env) (ev : SignInEventPayload → EventResult) (req : Request)
      (profile : User) (account : Account) (oauthProfile : String),
      env.provider.type = "oauth" →
      env.oauthResolution = OAuthResolution.ok profile account oauthProfile →
      env.signIn (oauthUserOrProfile env profile account) account
        (ThirdArg.oauthProfile oauthProfile) = SignInResult.allow →
      env.callbackHandler req.sessionToken profile account = CHResult.accountNotLinkedError →
      (callbackRoute env ev req).fst =
        Outcome.redirect (errorUrl env "OAuthAccountNotLinked")) ∧
    (∀ (env : Env) (ev : SignInEventPayload → EventResult) (req : Request)
      (profile : User) (account : Account) (oauthProfile : String),
      env.provider.type = "oauth" →
      env.oauthResolution = OAuthResolution.ok profile account oauthProfile →
      env.signIn (oauthUserOrProfile env profile account) account
        (ThirdArg.oauthProfile oauthProfile) = SignInResult.allow →
      env.callbackHandler req.sessionToken profile account = CHResult.createUserError →
      (callbackRoute env ev req).fst =
        Outcome.redirect (errorUrl env "OAuthCreateAccount")) ∧
    (∀ (env : Env) (ev : SignInEventPayload → EventResult) (req : Request)
      (a : Adapter),
      env.provider.type = "email" →
      env.adapter = some a →
      a.getVerificationRequest req.queryEmail req.queryToken = true →
      env.signIn ((a.getUserByEmail req.queryEmail).getD (emailPlaceholder req.queryEmail))
        (emailAccount env req.queryEmail) (ThirdArg.emailObj req.queryEmail)
        = SignInResult.allow →
      env.callbackHandler req.sessionToken
        ((a.getUserByEmail req.queryEmail).getD (emailPlaceholder req.queryEmail))
        (emailAccount env req.queryEmail) = CHResult.accountNotLinkedError →
      (callbackRoute env ev req).fst = Outcome.redirect (errorUrl env "Callback")) ∧
    (∀ (env : Env) (ev : SignInEventPayload → EventResult) (req : Request)
      (a : Adapter),
      env.provider.type = "email" →
      env.adapter = some a →
      a.getVerificationRequest req.queryEmail req.queryToken = true →
      env.signIn ((a.getUserByEmail req.queryEmail).getD (emailPlaceholder req.queryEmail))
        (emailAccount env req.queryEmail) (ThirdArg.emailObj req.queryEmail)
        = SignInResult.allow →
      env.callbackHandler req.sessionToken
        ((a.getUserByEmail req.queryEmail).getD (emailPlaceholder req.queryEmail))
        (emailAccount env req.queryEmail) = CHResult.createUserError →
      (callbackRoute env ev req).fst = Outcome.redirect (errorUrl env "EmailCreateAccount")) ∧
    (∀ env : Env, errorUrl env "OAuthAccountNotLinked" ≠ errorUrl env "OAuthCreateAccount") ∧
    (∀ env : Env, errorUrl env "Callback" ≠ errorUrl env "EmailCreateAccount") := by
  refine ⟨?_, ?_, ?_, ?_, ?_, ?_⟩
  · intro env ev req profile account oauthProfile hT hRes hSI hCH
    rw [callbackRoute_oauth env ev req hT]
    simp [oauthRun, oauthResolved, oauthAllowed, hRes, hSI, hCH]
  · intro env ev req profile account oauthProfile hT hRes hSI hCH
    rw [callbackRoute_oauth env ev req hT]
    simp [oauthRun, oauthResolved, oauthAllowed, hRes, hSI, hCH]
  · intro env ev req a hT hA hV hSI hCH
    rw [callbackRoute_email env ev req hT]
    simp [emailRun, emailVerified, emailAllowed, hA, hV, hSI, hCH]
  · intro env ev req a hT hA hV hSI hCH
    rw [callbackRoute_email env ev req hT]
    simp [emailRun, emailVerified, emailAllowed, hA, hV, hSI, hCH]
  · intro env h
    exact absurd (errorUrl_inj h) (by decide)
  · intro env h
    exact absurd (errorUrl_inj h) (by decide)

/-- Witness for the amended C6 at concrete environments. -/
theorem c6_witness :
    (callbackRoute { wEnvOauth with callbackHandler := fun _ _ _ => CHResult.accountNotLinkedError } wEv wReq).fst
      = Outcome.redirect
          (errorUrl { wEnvOauth with callbackHandler := fun _ _ _ => CHResult.accountNotLinkedError }
            "OAuthAccountNotLinked") ∧
    (callbackRoute { wEnvOauth with callbackHandler := fun _ _ _ => CHResult.createUserError } wEv wReq).fst
      = Outcome.redirect
          (errorUrl { wEnvOauth with callbackHandler := fun _ _ _ => CHResult.createUserError }
            "OAuthCreateAccount") ∧
    (callbackRoute c6Env wEv wReq).fst = Outcome.redirect (errorUrl c6Env "Callback") ∧
    (callbackRoute { wEnvEmail with callbackHandler := fun _ _ _ => CHResult.createUserError } wEv wReq).fst
      = Outcome.redirect
          (errorUrl { wEnvEmail with callbackHandler := fun _ _ _ => CHResult.createUserError }
            "EmailCreateAccount") ∧
    errorUrl wEnvEmail "OAuthAccountNotLinked" ≠ errorUrl wEnvEmail "OAuthCreateAccount" ∧
    errorUrl wEnvEmail "Callback" ≠ errorUrl wEnvEmail "EmailCreateAccount" := by
  refine ⟨?_, ?_, ?_, ?_, ?_, ?_⟩
  · exact c6_amended_materialize_error_codes.1
      { wEnvOauth with callbackHandler := fun _ _ _ => CHResult.accountNotLinkedError }
      wEv wReq wUser wAccount "rawprofile" rfl rfl rfl rfl
  · exact c6_amended_materialize_error_codes.2.1
      { wEnvOauth with callbackHandler := fun _ _ _ => CHResult.createUserError }
      wEv wReq wUser wAccount "rawprofile" rfl rfl rfl rfl
  · exact c6_amended_materialize_error_codes.2.2.1 c6Env wEv wReq wAdapter
      rfl rfl rfl rfl rfl
  · exact c6_amended_materialize_error_codes.2.2.2.1
      { wEnvEmail with callbackHandler := fun _ _ _ => CHResult.createUserError }
      wEv wReq wAdapter rfl rfl rfl rfl rfl
  · exact c6_amended_materialize_error_codes.2.2.2.2.1 wEnvEmail
  · exact c6_amended_materialize_error_codes.2.2.2.2.2 wEnvEmail

/-- C10: The credentials flow never materializes and never touches the
persistence adapter; every claims-shaping invocation in its trace carries
`isNewUser = false` and every dispatched sign-in payload lacks the
`isNewUser` field. -/
theorem c10_credentials_frame (env : Env) (ev : SignInEventPayload → EventResult)
    (req : Request)
    (hT : env.provider.type = "credentials") (hM : req.method = "POST") :
    ((callbackRoute env ev req).snd.all credFrameOk) = true := by
  rw [callbackRoute_credentials env ev req hT hM]
  cases hj : env.useJwtSession with
  | false => simp [credentialsRun, hj]
  | true =>
    cases hha : env.provider.hasAuthorize with
    | false => simp [credentialsRun, hj, hha]
    | true =>
      cases hz : env.authorize req.body with
      | ok user =>
        cases hsi : env.signIn user (credAccount env) (ThirdArg.creds req.body) with
        | allow =>
          cases hev : ev { user := user, account := credAccount env } <;>
            simp [credentialsRun, credentialsAuthorized, dispatchEvent, hj, hha, hz,
              hsi, hev, credFrameOk]
        | deny =>
          simp [credentialsRun, credentialsAuthorized, hj, hha, hz, hsi, credFrameOk]
        | throwErr n m =>
          simp [credentialsRun, credentialsAuthorized, hj, hha, hz, hsi, credFrameOk]
        | throwVal v =>
          simp [credentialsRun, credentialsAuthorized, hj, hha, hz, hsi, credFrameOk]
      | noUser => simp [credentialsRun, hj, hha, hz, credFrameOk]
      | throwErr n m => simp [credentialsRun, hj, hha, hz, credFrameOk]
      | throwVal v => simp [credentialsRun, hj, hha, hz, credFrameOk]

/-- Witness for C10 at a concrete environment. -/
theorem c10_witness :
    ((callbackRoute wEnvCred wEv wReq).snd.all credFrameOk) = true :=
  c10_credentials_frame wEnvCred wEv wReq rfl rfl

/-! ## Event-handler independence of the terminal outcome -/

theorem oauthAllowed_fst_ev (env : Env) (ev ev' : SignInEventPayload → EventResult)
    (req : Request) (profile : User) (account : Account) (oauthProfile : String) :
    (oauthAllowed env ev req profile account oauthProfile).fst
      = (oauthAllowed env ev' req profile account oauthProfile).fst := by
  unfold oauthAllowed
  cases h : env.callbackHandler req.sessionToken profile account <;> rfl

theorem oauthResolved_fst_ev (env : Env) (ev ev' : SignInEventPayload → EventResult)
    (req : Request) (profile : User) (account : Account) (oauthProfile : String) :
    (oauthResolved env ev req profile account oauthProfile).fst
      = (oauthResolved env ev' req profile account oauthProfile).fst := by
  simp only [oauthResolved]
  cases h : env.signIn (oauthUserOrProfile env profile account) account
      (ThirdArg.oauthProfile oauthProfile)
  case allow => exact oauthAllowed_fst_ev env ev ev' req profile account oauthProfile
  all_goals rfl

theorem oauthRun_fst_ev (env : Env) (ev ev' : SignInEventPayload → EventResult)
    (req : Request) :
    (oauthRun env ev req).fst = (oauthRun env ev' req).fst := by
  unfold oauthRun
  cases h : env.oauthResolution
  case ok profile account oauthProfile =>
    exact oauthResolved_fst_ev env ev ev' req profile account oauthProfile
  all_goals rfl

theorem emailAllowed_fst_ev (env : Env) (ev ev' : SignInEventPayload → EventResult)
    (req : Request) (profile : User) (account : Account) :
    (emailAllowed env ev req profile account).fst
      = (emailAllowed env ev' req profile account).fst := by
  unfold emailAllowed
  cases h : env.callbackHandler req.sessionToken profile account <;> rfl

theorem emailVerified_fst_ev (env : Env) (ev ev' : SignInEventPayload → EventResult)
    (req : Request) (a : Adapter) :
    (emailVerified env ev req a).fst = (emailVerified env ev' req a).fst := by
  simp only [emailVerified]
  cases h : env.signIn
      ((a.getUserByEmail req.queryEmail).getD (emailPlaceholder req.queryEmail))
      (emailAccount env req.queryEmail) (ThirdArg.emailObj req.queryEmail)
  case allow =>
    exact emailAllowed_fst_ev env ev ev' req
      ((a.getUserByEmail req.queryEmail).getD (emailPlaceholder req.queryEmail))
      (emailAccount env req.queryEmail)
  all_goals rfl

theorem emailRun_fst_ev (env : Env) (ev ev' : SignInEventPayload → EventResult)
    (req : Request) :
    (emailRun env ev req).fst = (emailRun env ev' req).fst := by
  unfold emailRun
  cases hAd : env.adapter <;> simp only [hAd]
  case some a =>
    cases hv : a.getVerificationRequest req.queryEmail req.queryToken
    case false => rfl
    case true => exact emailVerified_fst_ev env ev ev' req a

theorem credentialsAuthorized_fst_ev (env : Env)
    (ev ev' : SignInEventPayload → EventResult) (req : Request) (user : User) :
    (credentialsAuthorized env ev req user).fst
      = (credentialsAuthorized env ev' req user).fst := by
  simp only [credentialsAuthorized]
  cases h : env.signIn user (credAccount env) (ThirdArg.creds req.body) <;> rfl

theorem credentialsRun_fst_ev (env : Env) (ev ev' : SignInEventPayload → EventResult)
    (req : Request) :
    (credentialsRun env ev req).fst = (credentialsRun env ev' req).fst := by
  unfold credentialsRun
  cases hj : env.useJwtSession
  case false => rfl
  case true =>
    cases hha : env.provider.hasAuthorize
    case false => rfl
    case true =>
      cases hz : env.authorize req.body
      case ok user => exact credentialsAuthorized_fst_ev env ev ev' req user
      all_goals rfl

theorem callbackRoute_fst_ev (env : Env) (ev ev' : SignInEventPayload → EventResult)
    (req : Request) :
    (callbackRoute env ev req).fst = (callbackRoute env ev' req).fst := by
  unfold callbackRoute
  by_cases h1 : env.provider.type = "oauth"
  · rw [if_pos h1, if_pos h1]
    exact oauthRun_fst_ev env ev ev' req
  · rw [if_neg h1, if_neg h1]
    by_cases h2 : env.provider.type = "email"
    · rw [if_pos h2, if_pos h2]
      exact emailRun_fst_ev env ev ev' req
    · rw [if_neg h2, if_neg h2]
      by_cases h3 : env.provider.type = "credentials" ∧ req.method = "POST"
      · rw [if_pos h3, if_pos h3]
        exact credentialsRun_fst_ev env ev ev' req
      · rw [if_neg h3, if_neg h3]

/-- C7: In every branch, the behaviour of the deployment-supplied event
handler — in particular a failure thrown during event dispatch — does not
alter the terminal outcome: the result is the one an always-succeeding
handler would give. -/
theorem c7_event_dispatch_never_alters_outcome (env : Env)
    (ev : SignInEventPayload → EventResult) (req : Request) :
    (callbackRoute env ev req).fst
      = (callbackRoute env (fun _ => EventResult.ok) req).fst :=
  callbackRoute_fst_ev env ev (fun _ => EventResult.ok) req

end NextAuthCallback
